import Mathlib

/-!
Verification of the accel-mma84 driver (src/index.js) against its
natural-language specification.  The JavaScript code is shallowly embedded:
JS numbers are modelled as rationals, callback outcomes as inductive result
types, the driver instance state as an explicit structure.
-/

namespace AccelMMA84

/-- Abstract transport (bus) error, as produced by the register read/write
primitives.  The driver never inspects the payload, so a tag suffices. -/
inductive TransportError where
  | err (code : Nat)
deriving DecidableEq

/-- Errors constructed by the driver itself. -/
inductive DriverError where
  | transport (e : TransportError)
  | invalidOutputRate
  | invalidBufferLength
deriving DecidableEq

/-! ## Device mode controller: `_changeRegister` (src/index.js lines 144-165)

`_changeRegister(change, callback)` puts the device into standby, runs the
edit, and only on edit success puts the device back into active mode.  We
record which steps were attempted and how the sequence terminates for
`callback` (doneFn).  The parameters are the outcomes of the underlying
transport interactions: the outcome `_modeStandby` delivers to its callback
(both its CTRL_REG1 read failure, via `_failProcedure(err, callback)`, and
its write outcome reach that callback, so one parameter is faithful), the
outcome the edit passes to its continuation, and the two sub-steps of
`_modeActive` separately, because they terminate differently. -/

/-- How `_changeRegister` terminates for doneFn. -/
inductive DoneOutcome where
  | callback (err : Option TransportError)
  | thrownReference
deriving DecidableEq

structure ChangeRegisterResult where
  editAttempted : Bool
  activeAttempted : Bool
  done : DoneOutcome
deriving DecidableEq

/-- Embedding of `Accelerometer.prototype._changeRegister`:
on standby error, `_failProcedure(err, callback)` fires with the standby
error and nothing further runs; on edit error, `_failProcedure(err,
callback)` fires with the edit error and `_modeActive` is not called;
otherwise `_modeActive(callback)` runs.  Inside `_modeActive`, a CTRL_REG1
read failure hits `return _failProcedure(err);` (src/index.js 338) — a bare
identifier that is not in scope and is called without the callback, so a
ReferenceError is thrown and doneFn is never invoked; on read success the
written value is sent and doneFn receives the write outcome. -/
def changeRegister (standbyErr editErr activeReadErr activeWriteErr :
    Option TransportError) : ChangeRegisterResult :=
  match standbyErr with
  | some e =>
    { editAttempted := false, activeAttempted := false,
      done := .callback (some e) }
  | none =>
    match editErr with
    | some e =>
      { editAttempted := true, activeAttempted := false,
        done := .callback (some e) }
    | none =>
      match activeReadErr with
      | some _ =>
        { editAttempted := true, activeAttempted := true,
          done := .thrownReference }
      | none =>
        { editAttempted := true, activeAttempted := true,
          done := .callback activeWriteErr }

/-! ## Scale range: `_unsafeSetScaleRange` (src/index.js lines 376-398)

The code clamps the requested range to 8 only for the register encoding
(`fsr >>= 2`), but stores the raw requested value in `self.scaleRange`. -/

/-- JS ToInt32 of a number (here an exact rational): truncate toward zero,
then wrap into the signed 32-bit range. -/
def jsToInt32 (q : ℚ) : Int :=
  (Int.tdiv q.num q.den + 2 ^ 31).emod (2 ^ 32) - 2 ^ 31

/-- JS arithmetic shift right by 2 on an Int32 value: floor division by 4. -/
def jsShr2 (n : Int) : Int := Int.fdiv n 4

structure ScaleSetResult where
  registerValue : Int
  storedScaleRange : ℚ
deriving DecidableEq

/-- Embedding of `Accelerometer.prototype._unsafeSetScaleRange` (transport
assumed successful): `fsr` is the requested range clamped at 8 and shifted
right by two for the XYZ_DATA_CFG register, while `self.scaleRange` is set
to the raw requested value. -/
def unsafeSetScaleRange (scaleRange : ℚ) : ScaleSetResult :=
  let fsr := if scaleRange > 8 then (8 : ℚ) else scaleRange
  { registerValue := jsShr2 (jsToInt32 fsr), storedScaleRange := scaleRange }

/-! ## Output rate selection: `_getClosestOutputRate` (src/index.js 303-330) -/

/-- `Accelerometer.prototype.availableOutputRates` (src/index.js 450-452). -/
def availableOutputRates : List ℚ := [800, 400, 200, 100, 50, 12.5, 6.25, 1.56]

/-- The loop in `_getClosestOutputRate`: first element that is ≤ the
requested rate. -/
def findFirstLE : List ℚ → ℚ → Option ℚ
  | [], _ => none
  | a :: t, r => if a ≤ r then some a else findFirstLE t r

/-- Embedding of `Accelerometer.prototype._getClosestOutputRate`: negative
requests become 0; a 0 request returns 0; otherwise the first available
rate ≤ the request, falling back to the last (smallest) available rate. -/
def getClosestOutputRate (requestedRate : ℚ) : ℚ :=
  let r := if requestedRate < 0 then 0 else requestedRate
  if r = 0 then 0
  else
    match findFirstLE availableOutputRates r with
    | some a => a
    | none => availableOutputRates.getLastD 0

/-! ## Output rate programming: `_unsafeSetOutputRate` (src/index.js 401-446) -/

/-- JS `Array.prototype.indexOf`: index of the first occurrence, -1 if
absent. -/
def jsIndexOf : List ℚ → ℚ → Int
  | [], _ => -1
  | a :: t, x =>
    if a = x then 0
    else
      let r := jsIndexOf t x
      if r = -1 then -1 else r + 1

structure SetOutputRateResult where
  doneError : Option DriverError
  newOutputRate : ℚ
  registerWritten : Option Nat
deriving DecidableEq

/-- Embedding of `Accelerometer.prototype._unsafeSetOutputRate` with all
transport interactions successful; `regVal` is the CTRL_REG1 value read.
`self.outputRate` is assigned the snapped rate before the index lookup; if
the lookup fails (`bin == -1`) the edit aborts with the invalid-rate error
and no register write happens; otherwise bits 3-5 are cleared
(`regVal &= 199`) and the rate index is shifted into place. -/
def unsafeSetOutputRate (hz : ℚ) (regVal : Nat) : SetOutputRateResult :=
  let closest := getClosestOutputRate hz
  let bin := jsIndexOf availableOutputRates closest
  if bin ≠ -1 then
    let cleared := regVal &&& 199
    let written := if bin ≠ 0 then cleared ||| (bin.toNat <<< 3) else cleared
    { doneError := none, newOutputRate := closest, registerWritten := some written }
  else
    { doneError := some DriverError.invalidOutputRate, newOutputRate := closest,
      registerWritten := none }

/-! ## Sample acquisition: `getAcceleration` (src/index.js 498-524) -/

/-- The signed 12-bit value computed by the loop body in `getAcceleration`
before scaling: combine the two bytes, right-align to 12 bits, and apply
the manual two's-complement transform when the high byte exceeds 0x7F. -/
def decodeAxisRaw (hi lo : Nat) : Int :=
  let gCount := ((hi <<< 8) ||| lo) >>> 4
  if 0x7F < hi then -(1 + 0xFFF - (gCount : Int)) else (gCount : Int)

/-- One axis of `getAcceleration` output: the signed raw count divided by
`(1 << 12) / (2 * scaleRange)`. -/
def decodeAxis (hi lo : Nat) (scaleRange : ℚ) : ℚ :=
  (decodeAxisRaw hi lo : ℚ) / (((1 <<< 12 : Nat) : ℚ) / (2 * scaleRange))

/-- The three-axis output list computed from the 6 raw bytes. -/
def decodeSample (raw : List Nat) (scaleRange : ℚ) : List ℚ :=
  [decodeAxis (raw.getD 0 0) (raw.getD 1 0) scaleRange,
   decodeAxis (raw.getD 2 0) (raw.getD 3 0) scaleRange,
   decodeAxis (raw.getD 4 0) (raw.getD 5 0) scaleRange]

/-- What the `readAccel` callback does with the transport outcome. -/
inductive GetAccelOutcome where
  | thrown (e : TransportError)
  | callbackOk (out : List ℚ)
deriving DecidableEq

structure GetAccelRun where
  outcome : GetAccelOutcome
  queueReleased : Bool
deriving DecidableEq

/-- Embedding of the `readAccel` body of
`Accelerometer.prototype.getAcceleration`: on transport error the code
executes `if (err) throw err;` so the user callback is never invoked and
`queue.next` is never reached; on success it decodes, calls
`callback(null, out)` and releases the queue. -/
def getAccelerationRun (transfer : Except TransportError (List Nat))
    (scaleRange : ℚ) : GetAccelRun :=
  match transfer with
  | .error e => { outcome := .thrown e, queueReleased := false }
  | .ok rawData => { outcome := .callbackOk (decodeSample rawData scaleRange),
                     queueReleased := true }

/-- Natural-language spec formula for one axis (spec section 4.4): raw12 is
the high byte in bits 11-4 and the low byte's top nibble in bits 3-0; a set
sign bit (0x80) in the high byte makes it two's-complement negative via
`-(1 + 0xFFF - raw12)`; divide by `4096 / (2 * scaleRange)`. -/
def specAxisValue (hi lo : Nat) (scaleRange : ℚ) : ℚ :=
  let raw12 := hi * 16 + lo / 16
  let signed : Int := if hi &&& 0x80 = 0x80 then -(1 + 0xFFF - (raw12 : Int)) else (raw12 : Int)
  (signed : ℚ) / ((4096 : ℚ) / (2 * scaleRange))

/-- `Accelerometer.prototype.availableScaleRanges` (src/index.js 455-458). -/
def availableScaleRanges : List ℚ := [2, 4, 8]

/-! ## Signal processor state (constructor fields, src/index.js 45-75)

The fields of the driver instance touched by `_detectOrientation`,
`setSampleBufferLength`, `getTurbulence` and `getAverageAcceleration`.
`currentTurbulence` starts life as the JS value `undefined` (line 50 only
mentions the property without assigning), modelled as `none`. -/

structure AccelState where
  bufferLength : Nat
  bufferIndex : Nat
  sampleBuffer : List (ℚ × ℚ × ℚ)
  orientationSuppression : ℚ
  totalSamples : Nat
  currentTurbulence : Option ℚ
  averageAcceleration : ℚ × ℚ × ℚ
  currentOrientation : Int
deriving DecidableEq

/-- The constructor state: 13 zero samples, suppression 0.125, no samples
processed, turbulence undefined, orientation -1 (invalid). -/
def initialState : AccelState :=
  { bufferLength := 13
    bufferIndex := 0
    sampleBuffer := List.replicate 13 ((0 : ℚ), (0 : ℚ), (0 : ℚ))
    orientationSuppression := 0.125
    totalSamples := 0
    currentTurbulence := none
    averageAcceleration := (0, 0, 0)
    currentOrientation := -1 }

/-- Average acceleration loop of `_detectOrientation` (src/index.js
194-206): sum `buffer[i]` for `i < n` componentwise, divide by `n`. -/
def avgOf (buf : List (ℚ × ℚ × ℚ)) (n : Nat) : ℚ × ℚ × ℚ :=
  let s := (List.range n).foldl
    (fun acc i =>
      let p := buf.getD i (0, 0, 0)
      (acc.1 + p.1, acc.2.1 + p.2.1, acc.2.2 + p.2.2))
    ((0 : ℚ), (0 : ℚ), (0 : ℚ))
  (s.1 / (n : ℚ), s.2.1 / (n : ℚ), s.2.2 / (n : ℚ))

/-- Turbulence loop of `_detectOrientation` (src/index.js 209-220): sum of
absolute consecutive deltas over all three axes, normalized by
`(n - 1) * 3`. -/
def turbOf (buf : List (ℚ × ℚ × ℚ)) (n : Nat) : ℚ :=
  let t := (List.range (n - 1)).foldl
    (fun acc j =>
      let p := buf.getD (j + 1) (0, 0, 0)
      let q := buf.getD j (0, 0, 0)
      acc + |p.1 - q.1| + |p.2.1 - q.2.1| + |p.2.2 - q.2.2|)
    (0 : ℚ)
  t / (((n : ℚ) - 1) * 3)

/-- The `switch (maxDimension)` classification (src/index.js 223-247):
cases are tested in source order against the three averages and their
negations; XUP = 0, XDOWN = 1, YUP = 2, YDOWN = 3, ZUP = 4, and both the
`default:` label and the `-avg z` case give ZDOWN = 5. -/
def classify (avg : ℚ × ℚ × ℚ) : Int :=
  let maxDimension := max |avg.1| (max |avg.2.1| |avg.2.2|)
  if maxDimension = avg.1 then 0
  else if maxDimension = -avg.1 then 1
  else if maxDimension = avg.2.1 then 2
  else if maxDimension = -avg.2.1 then 3
  else if maxDimension = avg.2.2 then 4
  else 5

/-- Embedding of `Accelerometer.prototype._detectOrientation` (src/index.js
182-259).  Returns the updated state and the list of orientation values
passed to `emit` during this update (the code always emits
`self.currentOrientation` as the event payload).  The change-path emission
requires a differing classification and turbulence strictly below the
suppression threshold; the forced emission fires whenever the running
sample counter equals the buffer length, regardless of turbulence. -/
def detectOrientation (s : AccelState) (xyz : ℚ × ℚ × ℚ) :
    AccelState × List Int :=
  let totalSamples := s.totalSamples + 1
  let buf := s.sampleBuffer.set s.bufferIndex xyz
  let bufferIndex := (s.bufferIndex + 1) % s.bufferLength
  let avg := avgOf buf s.bufferLength
  let turb := turbOf buf s.bufferLength
  let newOrientation := classify avg
  let currentOrientation :=
    if newOrientation ≠ s.currentOrientation ∧ turb < s.orientationSuppression
    then newOrientation else s.currentOrientation
  let em1 : List Int :=
    if newOrientation ≠ s.currentOrientation ∧ turb < s.orientationSuppression
    then [newOrientation] else []
  let em2 : List Int :=
    if totalSamples = s.bufferLength then [currentOrientation] else []
  ({ s with
      totalSamples := totalSamples
      sampleBuffer := buf
      bufferIndex := bufferIndex
      averageAcceleration := avg
      currentTurbulence := some turb
      currentOrientation := currentOrientation },
   em1 ++ em2)

/-- Run `_detectOrientation` over a sequence of samples, collecting all
emitted orientation values in order. -/
def runDetect (s : AccelState) : List (ℚ × ℚ × ℚ) → AccelState × List Int
  | [] => (s, [])
  | x :: xs =>
    let r := detectOrientation s x
    let rest := runDetect r.1 xs
    (rest.1, r.2 ++ rest.2)

/-- Embedding of `Accelerometer.prototype.setSampleBufferLength`
(src/index.js 582-602): lengths below 2 fail fast via `_failProcedure` and
leave the state untouched; otherwise the buffer is re-created all-zero and
the write index cleared.  `totalSamples`, `averageAcceleration` and
`currentTurbulence` are not touched. -/
def setSampleBufferLength (s : AccelState) (length : Nat) :
    AccelState × Option DriverError :=
  if length < 2 then (s, some DriverError.invalidBufferLength)
  else
    ({ s with
        bufferLength := length
        bufferIndex := 0
        sampleBuffer := List.replicate length ((0 : ℚ), (0 : ℚ), (0 : ℚ)) },
     none)

/-- Embedding of `Accelerometer.prototype.getAverageAcceleration`
(src/index.js 605-609). -/
def getAverageAcceleration (s : AccelState) : ℚ × ℚ × ℚ :=
  s.averageAcceleration

/-- Embedding of `Accelerometer.prototype.getTurbulence` (src/index.js
551-555): returns the raw field, which is `undefined` (`none`) until
`_detectOrientation` first assigns it. -/
def getTurbulence (s : AccelState) : Option ℚ :=
  s.currentTurbulence

/-! ## Helper lemmas -/

/-- Closed form of the rate-snapping loop: a non-positive request gives 0,
otherwise the first (largest) available rate below the request, with 1.56
as the fallback for requests in (0, 1.56). -/
theorem getClosest_char (r : ℚ) : getClosestOutputRate r =
    if r ≤ 0 then 0
    else if 800 ≤ r then 800
    else if 400 ≤ r then 400
    else if 200 ≤ r then 200
    else if 100 ≤ r then 100
    else if 50 ≤ r then 50
    else if 12.5 ≤ r then 12.5
    else if 6.25 ≤ r then 6.25
    else 1.56 := by
  unfold getClosestOutputRate availableOutputRates
  simp only []
  rcases le_or_lt r 0 with h | h
  · rcases lt_or_eq_of_le h with h' | h'
    · rw [if_pos h', if_pos rfl, if_pos h]
    · subst h'
      norm_num
  · rw [if_neg (not_lt.mpr h.le), if_neg (ne_of_gt h), if_neg (not_le.mpr h)]
    simp only [findFirstLE]
    split_ifs <;> simp_all

/-- Combining a byte shifted left by 8 with a second byte below 256 is
plain addition: the bit ranges are disjoint. -/
theorem shiftLeft_lor_eq_add (hi lo : ℕ) (hlo : lo < 256) :
    (hi <<< 8) ||| lo = hi * 256 + lo := by
  apply Nat.eq_of_testBit_eq
  intro k
  rw [Nat.testBit_lor, Nat.testBit_shiftLeft]
  have h2 : hi * 256 + lo = 2 ^ 8 * hi + lo := by ring
  rw [h2, Nat.testBit_mul_pow_two_add hi (by omega : lo < 2 ^ 8)]
  by_cases hk : k < 8
  · simp [hk, Nat.not_le.mpr hk]
  · have hge : 8 ≤ k := Nat.le_of_not_lt hk
    have : lo < 2 ^ k :=
      lt_of_lt_of_le hlo (by calc (256 : ℕ) = 2 ^ 8 := by norm_num
                               _ ≤ 2 ^ k := Nat.pow_le_pow_right (by norm_num) hge)
    simp [hk, hge, Nat.testBit_lt_two_pow this]

/-- The 12-bit combine of the source code equals the bit-field description
of the spec: high byte into bits 11-4, top nibble of the low byte into
bits 3-0. -/
theorem combine_eq (hi lo : ℕ) (hlo : lo < 256) :
    ((hi <<< 8) ||| lo) >>> 4 = hi * 16 + lo / 16 := by
  rw [shiftLeft_lor_eq_add hi lo hlo, Nat.shiftRight_eq_div_pow,
    (by norm_num : (2 : ℕ) ^ 4 = 16)]
  omega

set_option maxRecDepth 10000 in
/-- For a byte, the source comparison `rawData > 0x7F` coincides with the
sign-bit test of the spec. -/
theorem sign_cond : ∀ hi < 256, (127 < hi ↔ hi &&& 128 = 128) := by decide

/-- The signed raw value computed by the code, rewritten with the bit-field
combine of the spec and the sign-bit condition. -/
theorem decodeAxisRaw_eq (hi lo : ℕ) (hhi : hi < 256) (hlo : lo < 256) :
    decodeAxisRaw hi lo =
      if hi &&& 0x80 = 0x80 then -(1 + 0xFFF - ((hi * 16 + lo / 16 : ℕ) : ℤ))
      else ((hi * 16 + lo / 16 : ℕ) : ℤ) := by
  unfold decodeAxisRaw
  rw [combine_eq hi lo hlo]
  rcases Nat.lt_or_ge 127 hi with h | h
  · rw [if_pos h, if_pos ((sign_cond hi hhi).mp h)]
  · rw [if_neg (Nat.not_lt.mpr h),
      if_neg (fun hc => absurd ((sign_cond hi hhi).mpr hc) (Nat.not_lt.mpr h))]

/-- One decoded axis of the code equals the spec formula. -/
theorem decodeAxis_eq_spec (hi lo : ℕ) (hhi : hi < 256) (hlo : lo < 256) (s : ℚ) :
    decodeAxis hi lo s = specAxisValue hi lo s := by
  unfold decodeAxis specAxisValue
  rw [decodeAxisRaw_eq hi lo hhi hlo]
  norm_num [Nat.shiftLeft_eq]

set_option maxHeartbeats 4000000 in
/-- Feeding the constant sample (2,0,0) from the constructor state for 13
updates (one full buffer) emits XUP twice: once at the first update and
once, forced, at buffer fill. -/
theorem run13_emissions :
    (runDetect initialState (List.replicate 13 ((2 : ℚ), 0, 0))).2 = [0, 0] := by
  norm_num [runDetect, detectOrientation, initialState, avgOf, turbOf, classify,
    List.range_succ, List.replicate, abs_eq_max_neg, max_def, List.getD]

set_option maxHeartbeats 4000000 in
/-- After only 12 of those updates (buffer not yet full) exactly one
emission has happened. -/
theorem run12_emissions :
    (runDetect initialState (List.replicate 12 ((2 : ℚ), 0, 0))).2 = [0] := by
  norm_num [runDetect, detectOrientation, initialState, avgOf, turbOf, classify,
    List.range_succ, List.replicate, abs_eq_max_neg, max_def, List.getD]

/-- The very first update on the constant sample (2,0,0) already emits XUP:
the turbulence of one step sample against twelve zero samples is 1/18,
below the default suppression threshold 1/8. -/
theorem run1_emissions :
    (detectOrientation initialState ((2 : ℚ), 0, 0)).2 = [0] := by
  norm_num [detectOrientation, initialState, avgOf, turbOf, classify,
    List.range_succ, List.replicate, abs_eq_max_neg, max_def, List.getD]

/-- C7 scenario, turbulence: resize the buffer to 2, feed (2,0,0) then
(0,0,0); the second update computes turbulence 2/3. -/
theorem c7_scenario_turb :
    (detectOrientation
        (detectOrientation (setSampleBufferLength initialState 2).1 ((2 : ℚ), 0, 0)).1
        ((0 : ℚ), 0, 0)).1.currentTurbulence = some (2 / 3) := by
  norm_num [detectOrientation, setSampleBufferLength, initialState, avgOf, turbOf,
    classify, List.range_succ, List.replicate, abs_eq_max_neg, max_def, List.getD]

/-- C7 scenario, suppression threshold: resizing does not touch the
default 0.125 threshold. -/
theorem c7_scenario_supp :
    (detectOrientation (setSampleBufferLength initialState 2).1
        ((2 : ℚ), 0, 0)).1.orientationSuppression = 1 / 8 := by
  norm_num [detectOrientation, setSampleBufferLength, initialState, avgOf, turbOf,
    classify, List.range_succ, List.replicate, abs_eq_max_neg, max_def, List.getD]

/-- C7 scenario, emissions: the second update is the buffer-fill update
(total samples = buffer length = 2), so the forced emission fires and emits
the still-invalid current orientation -1 even though turbulence 2/3 is far
above the threshold 1/8. -/
theorem c7_scenario_em :
    (detectOrientation
        (detectOrientation (setSampleBufferLength initialState 2).1 ((2 : ℚ), 0, 0)).1
        ((0 : ℚ), 0, 0)).2 = [-1] := by
  norm_num [detectOrientation, setSampleBufferLength, initialState, avgOf, turbOf,
    classify, List.range_succ, List.replicate, abs_eq_max_neg, max_def, List.getD]

/-! ## Claim theorems -/

/-- C1: the claim says a transport error in the 6-byte sample read is
reported through the getAcceleration callback and the command queue is
then released.  The code instead executes `if (err) throw err;`: the
outcome is a thrown exception, the callback never runs, and `queue.next`
is never called.  This theorem evaluates the embedded code at a failing
transport read and states the general error-path behavior. -/
theorem C1_getAcceleration_error_throws :
    (getAccelerationRun (Except.error (TransportError.err 5)) 2).outcome
      = GetAccelOutcome.thrown (TransportError.err 5) ∧
    (getAccelerationRun (Except.error (TransportError.err 5)) 2).queueReleased = false ∧
    ∀ (e : TransportError) (s : ℚ),
      (getAccelerationRun (Except.error e) s).outcome = GetAccelOutcome.thrown e ∧
      (getAccelerationRun (Except.error e) s).queueReleased = false :=
  ⟨rfl, rfl, fun _ _ => ⟨rfl, rfl⟩⟩

/-- C2 counterexample: with a successful standby transition and an edit
that fails with error 7, `_changeRegister` does not attempt the Active
restore (the claim says it still does); the callback receives the edit
error. -/
theorem C2_counterexample :
    (changeRegister none (some (TransportError.err 7)) none none).activeAttempted
      = false ∧
    (changeRegister none (some (TransportError.err 7)) none none).done
      = DoneOutcome.callback (some (TransportError.err 7)) :=
  ⟨rfl, rfl⟩

/-- C2 amended: on an edit error after a successful standby transition the
driver aborts via `_failProcedure` with the edit error and does not attempt
the Active restore; on a standby error it aborts before the edit, doneFn
receiving the standby error; the Active restore is attempted only when
standby and edit both succeed, and there a CTRL_REG1 read failure throws a
ReferenceError without ever invoking doneFn, while otherwise doneFn
receives the outcome of the Active write. -/
theorem C2_changeRegister_amended (s e ar : TransportError)
    (eo aro aw : Option TransportError) :
    (changeRegister none (some e) aro aw).activeAttempted = false ∧
    (changeRegister none (some e) aro aw).done = DoneOutcome.callback (some e) ∧
    (changeRegister (some s) eo aro aw).editAttempted = false ∧
    (changeRegister (some s) eo aro aw).activeAttempted = false ∧
    (changeRegister (some s) eo aro aw).done = DoneOutcome.callback (some s) ∧
    (changeRegister none none aro aw).activeAttempted = true ∧
    (changeRegister none none (some ar) aw).done = DoneOutcome.thrownReference ∧
    (changeRegister none none none aw).done = DoneOutcome.callback aw :=
  ⟨rfl, rfl, rfl, rfl, rfl,
   match aro with
   | some _ => rfl
   | none => rfl,
   rfl, rfl⟩

/-- C2 amended, instantiated at concrete errors, including the Active
read-failure crash. -/
theorem C2_changeRegister_amended_witness :
    (changeRegister none (some (TransportError.err 3)) none none).activeAttempted
      = false ∧
    (changeRegister none (some (TransportError.err 3)) none none).done
      = DoneOutcome.callback (some (TransportError.err 3)) ∧
    (changeRegister none none (some (TransportError.err 4)) none).done
      = DoneOutcome.thrownReference :=
  let h := C2_changeRegister_amended (TransportError.err 9) (TransportError.err 3)
    (TransportError.err 4) none none none
  ⟨h.1, h.2.1, h.2.2.2.2.2.2.1⟩

/-- C3 counterexample: after one processed sample (2,0,0) the constructor
state has totalSamples = 1 and average (2/13, 0, 0); resizing the buffer
to 5 keeps both, so the counter is not reset and getAverageAcceleration
does not return zeros right after the resize, contrary to the claim. -/
theorem C3_counterexample :
    (setSampleBufferLength (detectOrientation initialState ((2 : ℚ), 0, 0)).1
        5).1.totalSamples = 1 ∧
    (setSampleBufferLength (detectOrientation initialState ((2 : ℚ), 0, 0)).1
        5).1.totalSamples ≠ 0 ∧
    getAverageAcceleration
        (setSampleBufferLength (detectOrientation initialState ((2 : ℚ), 0, 0)).1 5).1
      = (2 / 13, 0, 0) ∧
    ((2 / 13 : ℚ), (0 : ℚ), (0 : ℚ)) ≠ ((0 : ℚ), (0 : ℚ), (0 : ℚ)) := by
  norm_num [detectOrientation, setSampleBufferLength, getAverageAcceleration,
    initialState, avgOf, turbOf, classify, List.range_succ, List.replicate,
    abs_eq_max_neg, max_def, List.getD, Prod.ext_iff]

/-- C3 amended: for n ≥ 2, setSampleBufferLength(n) re-creates the buffer
all-zero, resets the write index, sets the new length and reports no
error, but it does not touch the total-sample counter, the stored average
acceleration or the stored turbulence; getAverageAcceleration immediately
afterwards still returns the pre-resize average. -/
theorem C3_setSampleBufferLength_amended (s : AccelState) (n : Nat) (h : 2 ≤ n) :
    (setSampleBufferLength s n).1.sampleBuffer
      = List.replicate n ((0 : ℚ), (0 : ℚ), (0 : ℚ)) ∧
    (setSampleBufferLength s n).1.bufferIndex = 0 ∧
    (setSampleBufferLength s n).1.bufferLength = n ∧
    (setSampleBufferLength s n).2 = none ∧
    (setSampleBufferLength s n).1.totalSamples = s.totalSamples ∧
    getAverageAcceleration (setSampleBufferLength s n).1 = s.averageAcceleration ∧
    (setSampleBufferLength s n).1.currentTurbulence = s.currentTurbulence := by
  unfold setSampleBufferLength
  rw [if_neg (Nat.not_lt.mpr h)]
  exact ⟨rfl, rfl, rfl, rfl, rfl, rfl, rfl⟩

/-- C3 amended, instantiated at the constructor state and length 5. -/
theorem C3_setSampleBufferLength_amended_witness :
    2 ≤ 5 ∧
    (setSampleBufferLength initialState 5).1.bufferLength = 5 ∧
    getAverageAcceleration (setSampleBufferLength initialState 5).1
      = initialState.averageAcceleration :=
  let h := C3_setSampleBufferLength_amended initialState 5 (by norm_num)
  ⟨by norm_num, h.2.2.1, h.2.2.2.2.2.1⟩

/-- C4 counterexample: setScaleRange(100) stores 100 in the scaleRange
field used for raw-to-g conversion, which is neither the clamped value nor
a member of the supported {2,4,8} set. -/
theorem C4_counterexample :
    (unsafeSetScaleRange 100).storedScaleRange = 100 ∧
    (unsafeSetScaleRange 100).storedScaleRange ∉ availableScaleRanges ∧
    ¬ (unsafeSetScaleRange 100).storedScaleRange ≤ 8 := by
  refine ⟨rfl, ?_, ?_⟩ <;> norm_num [unsafeSetScaleRange, availableScaleRanges]

/-- C4 amended: only the register encoding clamps (2, 4, 8 encode to 0, 1,
2, and any request above 8 encodes to 2); the stored scaleRange field
always keeps the raw requested value. -/
theorem C4_scaleRange_amended (g : ℚ) (h : 8 < g) :
    (∀ q : ℚ, (unsafeSetScaleRange q).storedScaleRange = q) ∧
    (unsafeSetScaleRange 2).registerValue = 0 ∧
    (unsafeSetScaleRange 4).registerValue = 1 ∧
    (unsafeSetScaleRange 8).registerValue = 2 ∧
    (unsafeSetScaleRange g).registerValue = 2 := by
  refine ⟨fun q => rfl, by decide, by decide, by decide, ?_⟩
  show jsShr2 (jsToInt32 (if g > 8 then (8 : ℚ) else g)) = 2
  rw [if_pos h]
  decide

/-- C4 amended, instantiated at the request 100. -/
theorem C4_scaleRange_amended_witness :
    (8 : ℚ) < 100 ∧ (unsafeSetScaleRange 100).registerValue = 2 ∧
    (unsafeSetScaleRange 100).storedScaleRange = 100 :=
  ⟨by norm_num, (C4_scaleRange_amended 100 (by norm_num)).2.2.2.2,
   (C4_scaleRange_amended 100 (by norm_num)).1 100⟩

/-- C5: the claim says a request hz ≤ 0 completes without error and the
invalid-rate condition never occurs.  In the code the snapped rate 0 is
not in availableOutputRates, so indexOf returns -1 and the operation fails
with the invalid-rate error, never writing CTRL_REG1 — although
self.outputRate has already been set to 0.  A positive request such as
12.5 completes without error. -/
theorem C5_zero_rate_invalid_error :
    (unsafeSetOutputRate 0 0).doneError = some DriverError.invalidOutputRate ∧
    (unsafeSetOutputRate (-5) 0).doneError = some DriverError.invalidOutputRate ∧
    (unsafeSetOutputRate 0 0).registerWritten = none ∧
    (unsafeSetOutputRate 0 0).newOutputRate = 0 ∧
    (unsafeSetOutputRate 12.5 0).doneError = none := by
  norm_num [unsafeSetOutputRate, getClosestOutputRate, availableOutputRates,
    findFirstLE, jsIndexOf]

/-- C6 counterexample: from the constructor state (buffer length 13),
feeding (2,0,0) for exactly 13 updates produces two orientation emissions,
not the single forced one the claim describes. -/
theorem C6_counterexample :
    (runDetect initialState
        (List.replicate initialState.bufferLength ((2 : ℚ), 0, 0))).2.length = 2 ∧
    (runDetect initialState
        (List.replicate initialState.bufferLength ((2 : ℚ), 0, 0))).2.length ≠ 1 := by
  have hb : initialState.bufferLength = 13 := rfl
  rw [hb, run13_emissions]
  norm_num

/-- C6 amended: the run emits exactly twice, both with value XUP = 0: the
change-path emission already at the first update (its turbulence 1/18 is
below the default threshold 1/8), and the forced emission at the
buffer-fill update 13; updates 2 through 12 emit nothing. -/
theorem C6_orientation_amended :
    (runDetect initialState (List.replicate 13 ((2 : ℚ), 0, 0))).2 = [0, 0] ∧
    (detectOrientation initialState ((2 : ℚ), 0, 0)).2 = [0] ∧
    (runDetect initialState (List.replicate 12 ((2 : ℚ), 0, 0))).2 = [0] ∧
    initialState.bufferLength = 13 :=
  ⟨run13_emissions, run1_emissions, run12_emissions, rfl⟩

/-- C7 counterexample: with buffer length 2, after samples (2,0,0) and
(0,0,0) the second update has turbulence 2/3, far above the suppression
threshold 1/8, yet the buffer-fill forced emission still fires (emitting
the invalid orientation -1), so an orientation event is emitted at an
update whose turbulence exceeds the threshold. -/
theorem C7_counterexample :
    (detectOrientation
        (detectOrientation (setSampleBufferLength initialState 2).1 ((2 : ℚ), 0, 0)).1
        ((0 : ℚ), 0, 0)).2 = [-1] ∧
    (detectOrientation
        (detectOrientation (setSampleBufferLength initialState 2).1 ((2 : ℚ), 0, 0)).1
        ((0 : ℚ), 0, 0)).1.currentTurbulence = some (2 / 3) ∧
    (detectOrientation (setSampleBufferLength initialState 2).1
        ((2 : ℚ), 0, 0)).1.orientationSuppression = 1 / 8 ∧
    ¬ ((2 : ℚ) / 3 < 1 / 8) :=
  ⟨c7_scenario_em, c7_scenario_turb, c7_scenario_supp, by norm_num⟩

/-- C7 amended: when the turbulence computed at an update is at or above
the suppression threshold, the change-path emission is suppressed and the
current orientation is left unchanged; the only possible emission at such
an update is the one-time forced emission at buffer fill, which carries
the unchanged current orientation. -/
theorem C7_suppression_amended (s : AccelState) (xyz : ℚ × ℚ × ℚ) (turb : ℚ)
    (hT : (detectOrientation s xyz).1.currentTurbulence = some turb)
    (hGe : s.orientationSuppression ≤ turb) :
    (detectOrientation s xyz).1.currentOrientation = s.currentOrientation ∧
    (detectOrientation s xyz).2 =
      (if s.totalSamples + 1 = s.bufferLength then [s.currentOrientation] else []) := by
  have hT' : turbOf (s.sampleBuffer.set s.bufferIndex xyz) s.bufferLength = turb := by
    simpa [detectOrientation] using hT
  have hnot : ¬ (classify (avgOf (s.sampleBuffer.set s.bufferIndex xyz) s.bufferLength)
        ≠ s.currentOrientation ∧
      turbOf (s.sampleBuffer.set s.bufferIndex xyz) s.bufferLength
        < s.orientationSuppression) := by
    rw [hT']
    exact fun hc => absurd hc.2 (not_lt.mpr hGe)
  constructor
  · simp only [detectOrientation, if_neg hnot]
  · simp only [detectOrientation, if_neg hnot, List.nil_append]

/-- C7 amended, instantiated at the high-turbulence buffer-fill scenario. -/
theorem C7_suppression_amended_witness :
    (detectOrientation
        (detectOrientation (setSampleBufferLength initialState 2).1 ((2 : ℚ), 0, 0)).1
        ((0 : ℚ), 0, 0)).1.currentOrientation
      = (detectOrientation (setSampleBufferLength initialState 2).1
          ((2 : ℚ), 0, 0)).1.currentOrientation ∧
    (detectOrientation
        (detectOrientation (setSampleBufferLength initialState 2).1 ((2 : ℚ), 0, 0)).1
        ((0 : ℚ), 0, 0)).2 =
      (if (detectOrientation (setSampleBufferLength initialState 2).1
            ((2 : ℚ), 0, 0)).1.totalSamples + 1
          = (detectOrientation (setSampleBufferLength initialState 2).1
              ((2 : ℚ), 0, 0)).1.bufferLength
       then [(detectOrientation (setSampleBufferLength initialState 2).1
              ((2 : ℚ), 0, 0)).1.currentOrientation]
       else []) := by
  exact C7_suppression_amended _ ((0 : ℚ), 0, 0) (2 / 3) c7_scenario_turb
    (by rw [c7_scenario_supp]; norm_num)

set_option maxHeartbeats 1600000 in
/-- C8: the selected output rate is 0 for requests ≤ 0, is 1.56 for
requests strictly between 0 and 1.56, and otherwise is the largest
available rate that does not exceed the request; in particular it is
always a member of the available set and bounded by the request whenever
the request is at least 1.56. -/
theorem C8_selected_rate (r : ℚ) :
    (r ≤ 0 → getClosestOutputRate r = 0) ∧
    (0 < r → r < 1.56 → getClosestOutputRate r = 1.56) ∧
    (1.56 ≤ r →
      getClosestOutputRate r ∈ availableOutputRates ∧
      getClosestOutputRate r ≤ r ∧
      ∀ s ∈ availableOutputRates, s ≤ r → s ≤ getClosestOutputRate r) := by
  refine ⟨fun h => ?_, fun h0 h1 => ?_, fun h => ?_⟩ <;> rw [getClosest_char]
  · rw [if_pos h]
  · split_ifs <;> first | rfl | linarith
  · split_ifs with h0 h1 h2 h3 h4 h5 h6 h7
    · exact absurd h (by linarith)
    all_goals refine ⟨by norm_num [availableOutputRates], by linarith, ?_⟩
    all_goals intro s hs hsr
    all_goals norm_num [availableOutputRates] at hs
    all_goals rcases hs with rfl | rfl | rfl | rfl | rfl | rfl | rfl | rfl <;> linarith

/-- C8 instantiated: a negative request snaps to 0, a request of 1 snaps
up to 1.56, and a request of 100 is served at a rate not above 100. -/
theorem C8_selected_rate_witness :
    getClosestOutputRate (-3) = 0 ∧ getClosestOutputRate 1 = 1.56 ∧
    getClosestOutputRate 100 ≤ 100 :=
  ⟨(C8_selected_rate (-3)).1 (by norm_num),
   (C8_selected_rate 1).2.1 (by norm_num) (by norm_num),
   ((C8_selected_rate 100).2.2 (by norm_num)).2.1⟩

/-- C9: for any 6 raw bytes, getAcceleration returns exactly the spec
formula per axis: raw12 built from the high byte (bits 11-4) and the top
nibble of the low byte (bits 3-0), two's-complement negative via
-(1 + 0xFFF - raw12) when the sign bit 0x80 of the high byte is set,
scaled by 4096 / (2 * scaleRange); and the byte pair 0x80, 0x00 decodes to
-2048 before scaling. -/
theorem C9_sample_decode (b0 b1 b2 b3 b4 b5 : ℕ) (s : ℚ)
    (h0 : b0 < 256) (h1 : b1 < 256) (h2 : b2 < 256) (h3 : b3 < 256)
    (h4 : b4 < 256) (h5 : b5 < 256) :
    (getAccelerationRun (Except.ok [b0, b1, b2, b3, b4, b5]) s).outcome
      = GetAccelOutcome.callbackOk
          [specAxisValue b0 b1 s, specAxisValue b2 b3 s, specAxisValue b4 b5 s] ∧
    decodeAxisRaw 0x80 0x00 = -2048 := by
  constructor
  · show GetAccelOutcome.callbackOk (decodeSample [b0, b1, b2, b3, b4, b5] s) = _
    rw [show decodeSample [b0, b1, b2, b3, b4, b5] s
        = [decodeAxis b0 b1 s, decodeAxis b2 b3 s, decodeAxis b4 b5 s] from rfl]
    rw [decodeAxis_eq_spec b0 b1 h0 h1 s, decodeAxis_eq_spec b2 b3 h2 h3 s,
      decodeAxis_eq_spec b4 b5 h4 h5 s]
  · decide

/-- C9 instantiated at the bytes 0x80 0x00 / 0x12 0x34 / 0x7F 0xF0 with
scale range 2. -/
theorem C9_sample_decode_witness :
    (getAccelerationRun (Except.ok [0x80, 0x00, 0x12, 0x34, 0x7F, 0xF0]) 2).outcome
      = GetAccelOutcome.callbackOk
          [specAxisValue 0x80 0x00 2, specAxisValue 0x12 0x34 2,
           specAxisValue 0x7F 0xF0 2] ∧
    decodeAxisRaw 0x80 0x00 = -2048 :=
  C9_sample_decode 0x80 0x00 0x12 0x34 0x7F 0xF0 2 (by norm_num) (by norm_num)
    (by norm_num) (by norm_num) (by norm_num) (by norm_num)

/-- C10: at construction the turbulence field is undefined (line 50 of the
source only mentions the property), so getTurbulence returns no numeric
value; every run of _detectOrientation assigns it a number, and
setSampleBufferLength never touches it, so it first becomes numeric
exactly when _detectOrientation has run at least once. -/
theorem C10_turbulence_initially_undefined :
    getTurbulence initialState = none ∧
    (∀ (s : AccelState) (xyz : ℚ × ℚ × ℚ),
      (detectOrientation s xyz).1.currentTurbulence ≠ none) ∧
    (∀ (s : AccelState) (n : Nat),
      (setSampleBufferLength s n).1.currentTurbulence = s.currentTurbulence) := by
  refine ⟨rfl, fun s xyz hcon => ?_, fun s n => ?_⟩
  · simp only [detectOrientation] at hcon
    exact Option.noConfusion hcon
  · unfold setSampleBufferLength
    split_ifs <;> rfl

end AccelMMA84
